import Mathlib

/-!
Verification of the RoPE (rotary positional embedding) fusion passes of
`src/common/transformations/src/transformations/common_optimizations/fuse_rotary_positional_embeddings.cpp`
and of the type-discrimination utilities of `src/core/include/openvino/core/type.hpp`.

The matcher pass callbacks are embedded shallowly: each callback becomes a Lean
function whose inputs are the values a structural match binds (entries of the
`pattern_map` are node identifiers of type `Nat`, resolved symbols are
`PatternSymbol`, statically-known-or-dynamic dimensions are `Dimension`) and
whose output is `Option (RoPEConfig × ...)`.  A result of `none` models the
callback returning `false` (no mutation of the graph); `some (cfg, args)`
models the callback constructing exactly one canonical `op::internal::RoPE`
node with argument vector `args` and configuration `cfg` and replacing the
match root with it (`ov::replace_node(old_node, new_node)`).
-/

set_option linter.unusedVariables false

/-- Modelled from the spec: the Fusion Configuration of the canonical fused
RoPE node (`op::internal::RoPE::Config`, declared in
`ov_ops/rotary_positional_embeddings.hpp`, which is not under `src/`).
Per section 3 of the spec it carries the rotary dimension count, head
count/size, an optional slice window, interleave and transpose flags, the
gather-by-position argument index and the chat-model / qwen specific flags;
all fields default to zero/false. -/
structure RoPEConfig where
  slice_start : Nat := 0
  slice_stop : Nat := 0
  input_trans0213 : Bool := false
  output_trans0213 : Bool := false
  is_interleaved : Bool := false
  rotary_ndims : Nat := 0
  is_chatglm : Bool := false
  support_2d_rope : Bool := false
  use_rope_cache : Bool := false
  is_qwen : Bool := false
  head_cnt : Nat := 0
  head_size : Nat := 0
  gather_position_arg_id : Int := 0
deriving DecidableEq, Repr

/-- A single dimension of a tensor shape, either statically known or dynamic
(mirrors `ov::Dimension` as used through `is_static` / `i()` in the
callbacks; concrete dimension values are nonnegative). -/
inductive Dimension where
  | dynamic : Dimension
  | known (v : Nat) : Dimension
deriving DecidableEq, Repr

/-- Mirrors `ov::Dimension::is_static()`. -/
def Dimension.is_static : Dimension → Bool
  | Dimension.dynamic => false
  | Dimension.known _ => true

/-- Mirrors obtaining the concrete value of a static dimension (`.i()`);
only meaningful when the dimension is static. -/
def Dimension.i : Dimension → Nat
  | Dimension.dynamic => 0
  | Dimension.known v => v

/-- Embeds the `matcher_pass_callback` of `ov::pass::RoPEFusionFlux`
(`fuse_rotary_positional_embeddings.cpp:137-177`).  The structural pattern
binds `x` (rank 4, shape `[PRESERVED_DIMS..., head_size]`), `t_cos`, `t_sin`;
the matcher resolves the group symbol `PRESERVED_DIMS` to the first three
dimensions of `x` and `head_size` to the last one.  The callback reads
`num_heads = PRESERVED_DIMS[1]` and `head_size`, fails if either is not
static, and otherwise replaces the `Add` root with one RoPE node with inputs
`(x, t_cos, t_sin)`. -/
def fluxCallback (preserved_dims : List Dimension) (head_size : Dimension)
    (x t_cos t_sin : Nat) : Option (RoPEConfig × List Nat) :=
  let num_heads := preserved_dims.getD 1 Dimension.dynamic
  if ¬num_heads.is_static ∨ ¬head_size.is_static then
    none
  else
    let config : RoPEConfig :=
      { head_cnt := num_heads.i
        head_size := head_size.i
        rotary_ndims := head_size.i
        is_interleaved := true
        output_trans0213 := false }
    some (config, [x, t_cos, t_sin])

/-- C1: for the Flux-style interleaved RoPE subgraph on a `[B,24,L,128]`
tensor (reshape to `[B,24,L,64,2]`, split, negate-and-swap halves, reshape
back, multiply by 4D cos and sin, add), the RoPEFusionFlux callback replaces
the Add root with exactly one RoPE node with inputs `(x, t_cos, t_sin)` and
configuration `head_cnt = 24`, `head_size = 128`,
`rotary_ndims = head_size = 128`, `is_interleaved = true`,
`output_trans0213 = false`.  Here `PRESERVED_DIMS = [B, 24, L]` with `B`, `L`
arbitrary (possibly dynamic) dimensions. -/
theorem C1_flux_config (b l : Dimension) (x t_cos t_sin : Nat) :
    fluxCallback [b, Dimension.known 24, l] (Dimension.known 128) x t_cos t_sin
      = some ({ head_cnt := 24
                head_size := 128
                rotary_ndims := 128
                is_interleaved := true
                output_trans0213 := false }, [x, t_cos, t_sin]) := by
  rfl

/-- C3: if the head-count dimension (second preserved dimension) or the
head-size dimension of a structural Flux match is not statically known, the
RoPEFusionFlux callback returns `false` before performing any mutation
(`fuse_rotary_positional_embeddings.cpp:141-146`). -/
theorem C3_flux_dynamic_rejected (d0 d2 num_heads head_size : Dimension)
    (x t_cos t_sin : Nat)
    (h : num_heads.is_static = false ∨ head_size.is_static = false) :
    fluxCallback [d0, num_heads, d2] head_size x t_cos t_sin = none := by
  unfold fluxCallback
  rcases h with h | h <;> simp [List.getD, h]

/-- Witness for C3 at a concrete input: head count dynamic, head size 128. -/
theorem C3_flux_dynamic_rejected_witness :
    fluxCallback [Dimension.known 1, Dimension.dynamic, Dimension.known 7]
      (Dimension.known 128) 0 1 2 = none :=
  C3_flux_dynamic_rejected (Dimension.known 1) (Dimension.known 7)
    Dimension.dynamic (Dimension.known 128) 0 1 2 (Or.inl rfl)

/-- A scalar symbol resolved by the matcher, as queried through
`is_integer()` / `i()` in the callbacks (`ov::Symbol` of the pattern
machinery): either it did not resolve to an integer or it carries an
integer value. -/
inductive PatternSymbol where
  | noInteger : PatternSymbol
  | int (v : Int) : PatternSymbol
deriving DecidableEq, Repr

/-- Mirrors `Symbol::is_integer()`. -/
def PatternSymbol.is_integer : PatternSymbol → Bool
  | PatternSymbol.noInteger => false
  | PatternSymbol.int _ => true

/-- Mirrors `Symbol::i()`; only meaningful when the symbol is an integer. -/
def PatternSymbol.i : PatternSymbol → Int
  | PatternSymbol.noInteger => 0
  | PatternSymbol.int v => v

/-- Embeds the `matcher_pass_callback` of `ov::pass::RoPEFusionGPTNEOX`
(`fuse_rotary_positional_embeddings.cpp:302-344`).  The pattern matches only
the `rotate_half(x) * sin` branch structurally; the first multiply binds two
wildcards `x_or_cos1`, `x_or_cos2`.  The callback disambiguates
post hoc: the operand equal to the value bound to `x` is the data, the
other operand is the cosine table; if neither operand equals `x` the match
is rejected.  Then `half_ndims` must be an integer and the root is replaced
by one RoPE node with inputs `(x, cos, sin)` and
`rotary_ndims = 2 * half_ndims`. -/
def gptneoxCallback (x x_or_cos1 x_or_cos2 t_sin : Nat)
    (half_ndims : PatternSymbol) : Option (RoPEConfig × List Nat) :=
  let v_cos : Option Nat :=
    if x_or_cos1 = x then some x_or_cos2
    else if x_or_cos2 = x then some x_or_cos1
    else none
  match v_cos with
  | none => none
  | some v_cos =>
    if ¬half_ndims.is_integer then
      none
    else
      some ({ rotary_ndims := 2 * half_ndims.i.toNat }, [x, v_cos, t_sin])

/-- C2: for the GPT-NeoX shape `mul(x,cos) + mul(rotate_half(x),sin)`,
swapping the literal operand order of the first multiply still fuses and
yields the identical configuration and identical `(x, cos, sin)` argument
assignment; and if neither operand of the first multiply equals the value
bound to `x`, the callback returns `false` and nothing is rewritten. -/
theorem C2_gptneox_commutative (x x_or_cos1 x_or_cos2 t_sin : Nat)
    (half_ndims : PatternSymbol) :
    gptneoxCallback x x_or_cos1 x_or_cos2 t_sin half_ndims
      = gptneoxCallback x x_or_cos2 x_or_cos1 t_sin half_ndims
    ∧ (x_or_cos1 ≠ x → x_or_cos2 ≠ x →
        gptneoxCallback x x_or_cos1 x_or_cos2 t_sin half_ndims = none) := by
  constructor
  · by_cases h1 : x_or_cos1 = x <;> by_cases h2 : x_or_cos2 = x <;>
      simp [gptneoxCallback, h1, h2]
  · intro h1 h2
    simp [gptneoxCallback, h1, h2]

/-- Witness for C2 at a concrete input (neither operand equals `x`). -/
theorem C2_gptneox_commutative_witness :
    gptneoxCallback 0 1 2 3 (PatternSymbol.int 32) = none :=
  (C2_gptneox_commutative 0 1 2 3 (PatternSymbol.int 32)).2
    (by decide) (by decide)

/-- The discriminated kind of a consumer node of the match root, as examined
by the GPT-J callback: a `Transpose` whose axes input is a `Constant`
(carrying its permutation), a `Transpose` without constant axes, or any
other operator. -/
inductive ConsumerKind where
  | transposeConst (perm : List Int) : ConsumerKind
  | transposeNoConst : ConsumerKind
  | other : ConsumerKind
deriving DecidableEq, Repr

/-- One target input of the match root's output: the consumer node's
identifier and its discriminated kind. -/
structure Consumer where
  id : Nat
  kind : ConsumerKind
deriving DecidableEq, Repr

/-- Embeds the `matcher_pass_callback` of `ov::pass::RoPEFusionGPTJ`
(`fuse_rotary_positional_embeddings.cpp:603-664`).  After the symbol gate
(`ndims`, `ndims/2` integers with `(ndims/2) * 2 = ndims`), the callback
checks whether the root output has exactly one target input that is a
`Transpose` with constant permutation `[0,2,1,3]`; if so the transpose is
absorbed (`output_trans0213 = true`) and the fused node replaces the
transpose instead of the root.  The returned triple carries the
configuration, the new node's arguments
`(view_Reshape, gather_sin_cos, gather_sin_cos)` and the identifier of the
node the fused node replaces. -/
def gptjCallback (ndims ndims_over_2 : PatternSymbol)
    (rootId view_Reshape gather_sin_cos : Nat)
    (root_target_inputs : List Consumer) :
    Option (RoPEConfig × List Nat × Nat) :=
  if ¬ndims.is_integer ∨ ¬ndims_over_2.is_integer ∨
      ndims_over_2.i * 2 ≠ ndims.i then
    none
  else
    let absorbed : Bool × Nat :=
      match root_target_inputs with
      | [c] =>
        match c.kind with
        | ConsumerKind.transposeConst perm =>
          if perm = [0, 2, 1, 3] then (true, c.id) else (false, rootId)
        | _ => (false, rootId)
      | _ => (false, rootId)
    let config : RoPEConfig :=
      { rotary_ndims := ndims.i.toNat
        is_interleaved := true
        output_trans0213 := absorbed.1 }
    some (config, [view_Reshape, gather_sin_cos, gather_sin_cos], absorbed.2)

/-- Embeds the `matcher_pass_callback` of `ov::pass::RoPEFusionQwen`
(`fuse_rotary_positional_embeddings.cpp:1045-1100`).  The symbol gate
requires `head_cnt`, `head_size`, `head_size/2` and `head_cnt*head_size` to
be integers with `(head_size/2) * 2 = head_size` and
`head_cnt * head_size = head_cnt*head_size`; on success the root is
replaced by one RoPE node whose slice window is selected by
`split_output_id` and whose optional fourth argument is the position-ids
input. -/
def qwenCallback (head_cnt head_size head_size_over_2 head_cnt_by_head_size :
      PatternSymbol)
    (split_output_id : Nat) (qkv_proj rotary_emb_cos rotary_emb_sin : Nat)
    (position_ids : Option Nat) : Option (RoPEConfig × List Nat) :=
  if ¬head_cnt.is_integer ∨ ¬head_size.is_integer ∨
      ¬head_size_over_2.is_integer ∨ ¬head_cnt_by_head_size.is_integer ∨
      head_size_over_2.i * 2 ≠ head_size.i ∨
      head_cnt.i * head_size.i ≠ head_cnt_by_head_size.i then
    none
  else
    let hc := head_cnt.i.toNat
    let hs := head_size.i.toNat
    let base : RoPEConfig :=
      { is_qwen := true
        head_cnt := hc
        head_size := hs
        rotary_ndims := hs }
    let config :=
      if split_output_id = 0 then
        { base with slice_start := 0, slice_stop := hc * hs }
      else
        { base with slice_start := hc * hs, slice_stop := hc * hs + hc * hs }
    match position_ids with
    | some pid =>
      some ({ config with gather_position_arg_id := 3 },
            [qkv_proj, rotary_emb_cos, rotary_emb_sin, pid])
    | none =>
      some (config, [qkv_proj, rotary_emb_cos, rotary_emb_sin])

/-- C4: when the resolved symbols violate the declared dyadic relation —
`2 * (ndims/2) ≠ ndims` in RoPEFusionGPTJ, or `2 * (head_size/2) ≠ head_size`
or `head_cnt * head_size ≠ head_cnt*head_size` in RoPEFusionQwen — the
callback returns `false` and the match attempt is abandoned without any
graph mutation. -/
theorem C4_symbol_relation_guard (n h hc hs hs2 hchs : Int)
    (rootId vr gsc : Nat) (cs : List Consumer)
    (sid qkv cosv sinv : Nat) (pids : Option Nat) :
    (h * 2 ≠ n →
      gptjCallback (PatternSymbol.int n) (PatternSymbol.int h)
        rootId vr gsc cs = none)
    ∧ (hs2 * 2 ≠ hs ∨ hc * hs ≠ hchs →
      qwenCallback (PatternSymbol.int hc) (PatternSymbol.int hs)
        (PatternSymbol.int hs2) (PatternSymbol.int hchs)
        sid qkv cosv sinv pids = none) := by
  constructor
  · intro hne
    simp [gptjCallback, PatternSymbol.is_integer, PatternSymbol.i, hne]
  · intro hne
    rcases hne with hne | hne <;>
      simp [qwenCallback, PatternSymbol.is_integer, PatternSymbol.i, hne]

/-- Witness for C4 at concrete inputs: `ndims = 5` with `ndims/2 = 3`
(3 * 2 ≠ 5) for GPT-J, and `head_size = 5` with `head_size/2 = 3` for Qwen. -/
theorem C4_symbol_relation_guard_witness :
    gptjCallback (PatternSymbol.int 5) (PatternSymbol.int 3) 0 1 2 [] = none
    ∧ qwenCallback (PatternSymbol.int 2) (PatternSymbol.int 5)
        (PatternSymbol.int 3) (PatternSymbol.int 10) 0 0 1 2 none = none :=
  ⟨(C4_symbol_relation_guard 5 3 2 5 3 10 0 1 2 [] 0 0 1 2 none).1 (by decide),
   (C4_symbol_relation_guard 5 3 2 5 3 10 0 1 2 [] 0 0 1 2 none).2
     (Or.inl (by decide))⟩

/-- C7: in RoPEFusionGPTJ, when the match root's single downstream consumer
is a `Transpose` with constant permutation `[0,2,1,3]`, the fused node's
configuration gets `output_trans0213 = true` and the fused node replaces the
transpose itself; for any other consumer list `output_trans0213` stays
`false` and the fused node replaces only the match root. -/
theorem C7_gptj_output_transpose (n h : Int) (hrel : h * 2 = n)
    (rootId vr gsc tid : Nat) (cs : List Consumer) :
    gptjCallback (PatternSymbol.int n) (PatternSymbol.int h) rootId vr gsc
        [⟨tid, ConsumerKind.transposeConst [0, 2, 1, 3]⟩]
      = some ({ rotary_ndims := n.toNat
                is_interleaved := true
                output_trans0213 := true }, [vr, gsc, gsc], tid)
    ∧ ((∀ t : Nat, cs ≠ [⟨t, ConsumerKind.transposeConst [0, 2, 1, 3]⟩]) →
      gptjCallback (PatternSymbol.int n) (PatternSymbol.int h) rootId vr gsc cs
        = some ({ rotary_ndims := n.toNat
                  is_interleaved := true
                  output_trans0213 := false }, [vr, gsc, gsc], rootId)) := by
  constructor
  · simp [gptjCallback, PatternSymbol.is_integer, PatternSymbol.i, hrel]
  · intro hno
    match cs with
    | [] =>
      simp [gptjCallback, PatternSymbol.is_integer, PatternSymbol.i, hrel]
    | [⟨cid, ckind⟩] =>
      match ckind with
      | ConsumerKind.transposeConst perm =>
        have hperm : perm ≠ [0, 2, 1, 3] := by
          intro hp
          exact hno cid (by rw [hp])
        simp [gptjCallback, PatternSymbol.is_integer, PatternSymbol.i, hrel,
          hperm]
      | ConsumerKind.transposeNoConst =>
        simp [gptjCallback, PatternSymbol.is_integer, PatternSymbol.i, hrel]
      | ConsumerKind.other =>
        simp [gptjCallback, PatternSymbol.is_integer, PatternSymbol.i, hrel]
    | c1 :: c2 :: rest =>
      simp [gptjCallback, PatternSymbol.is_integer, PatternSymbol.i, hrel]

/-- Witness for C7 at a concrete input: `ndims = 64`, `ndims/2 = 32`, a
single absorbable transpose consumer in the first conjunct, no consumers in
the second. -/
theorem C7_gptj_output_transpose_witness :
    gptjCallback (PatternSymbol.int 64) (PatternSymbol.int 32) 0 1 2
        [⟨9, ConsumerKind.transposeConst [0, 2, 1, 3]⟩]
      = some ({ rotary_ndims := 64
                is_interleaved := true
                output_trans0213 := true }, [1, 2, 2], 9)
    ∧ gptjCallback (PatternSymbol.int 64) (PatternSymbol.int 32) 0 1 2 []
      = some ({ rotary_ndims := 64
                is_interleaved := true
                output_trans0213 := false }, [1, 2, 2], 0) :=
  ⟨(C7_gptj_output_transpose 64 32 (by decide) 0 1 2 9 []).1,
   (C7_gptj_output_transpose 64 32 (by decide) 0 1 2 9 []).2
     (by intro t; simp)⟩

/-- Embeds the `matcher_pass_callback` of `ov::pass::RoPEFusionPreprocess`
(`fuse_rotary_positional_embeddings.cpp:495-523`).  The match root is an
already-fused RoPE node whose existing configuration is `config`; the
callback receives either the pre-slice input together with the resolved
`slice_start` / `slice_stop` symbols (when `input_to_slice` is bound) or
only the pre-transpose input (when `input_to_trans` is bound), and returns
the amended configuration together with the value the node's data argument
is redirected to; if neither is bound it returns `false`. -/
def preprocessCallback (config : RoPEConfig)
    (input_to_slice : Option (Nat × Int × Int)) (input_to_trans : Option Nat) :
    Option (RoPEConfig × Nat) :=
  match input_to_slice with
  | some (inp, slice_start, slice_stop) =>
    some ({ config with
            slice_start := slice_start.toNat
            slice_stop := slice_stop.toNat
            input_trans0213 := true }, inp)
  | none =>
    match input_to_trans with
    | some inp => some ({ config with input_trans0213 := true }, inp)
    | none => none

/-- C6: when RoPEFusionPreprocess rewrites an already-fused RoPE node, the
fields `rotary_ndims`, `head_cnt`, `head_size`, `is_interleaved`,
`is_chatglm`, `is_qwen` and `gather_position_arg_id` of the node's existing
configuration are exactly preserved; only `slice_start`, `slice_stop` and
`input_trans0213` are newly set, and the data argument is redirected to the
pre-slice/pre-transpose input. -/
theorem C6_preprocess_preserves_config (config config2 : RoPEConfig)
    (input_to_slice : Option (Nat × Int × Int)) (input_to_trans : Option Nat)
    (arg : Nat)
    (h : preprocessCallback config input_to_slice input_to_trans
          = some (config2, arg)) :
    config2.rotary_ndims = config.rotary_ndims
    ∧ config2.head_cnt = config.head_cnt
    ∧ config2.head_size = config.head_size
    ∧ config2.is_interleaved = config.is_interleaved
    ∧ config2.is_chatglm = config.is_chatglm
    ∧ config2.is_qwen = config.is_qwen
    ∧ config2.gather_position_arg_id = config.gather_position_arg_id
    ∧ config2 = { config with
                  slice_start := config2.slice_start
                  slice_stop := config2.slice_stop
                  input_trans0213 := config2.input_trans0213 } := by
  match input_to_slice with
  | some (inp, ss, st) =>
    simp only [preprocessCallback, Option.some.injEq, Prod.mk.injEq] at h
    obtain ⟨hcfg, harg⟩ := h
    subst hcfg
    simp
  | none =>
    match input_to_trans with
    | some inp =>
      simp only [preprocessCallback, Option.some.injEq, Prod.mk.injEq] at h
      obtain ⟨hcfg, harg⟩ := h
      subst hcfg
      simp
    | none =>
      simp [preprocessCallback] at h

/-- Witness for C6 at a concrete input: an existing GPT-NeoX style
configuration with `rotary_ndims = 64`, `head_cnt = 8`, `head_size = 64`,
absorbing a slice window `(0, 512)`. -/
theorem C6_preprocess_preserves_config_witness :
    ({ rotary_ndims := 64, head_cnt := 8, head_size := 64,
       slice_start := 0, slice_stop := 512,
       input_trans0213 := true } : RoPEConfig).rotary_ndims
      = ({ rotary_ndims := 64, head_cnt := 8,
           head_size := 64 } : RoPEConfig).rotary_ndims :=
  (C6_preprocess_preserves_config
    { rotary_ndims := 64, head_cnt := 8, head_size := 64 }
    { rotary_ndims := 64, head_cnt := 8, head_size := 64,
      slice_start := 0, slice_stop := 512, input_trans0213 := true }
    (some (5, 0, 512)) none 5 (by rfl)).1

/-- Embeds the helper `chatglm_validate_reshape_symbols`
(`fuse_rotary_positional_embeddings.cpp:86-101`): the reshape-shape symbols
`A`, `B`, `C` pass the check exactly for the ChatGLM4, ChatGLM3 and
ChatGLM-nano triples. -/
def chatglm_validate_reshape_symbols (A B C head_cnt : Int) : Bool :=
  (A == -1 && B == head_cnt && C == 1) ||
  (A == 1 && B == -1 && C == head_cnt) ||
  (A == 0 && B == 0 && C == 0)

/-- Embeds the `matcher_pass_callback` of `ov::pass::RoPEFusionChatGLM`
(`fuse_rotary_positional_embeddings.cpp:822-868`).  After the pattern
validator succeeds, the reshape symbols `A`, `B`, `C` are checked by
`chatglm_validate_reshape_symbols`; the configuration is then built from
`ndims`, `head_cnt`, `head_size` and the slice window selected by
`split_output_id`, with an extra `rotary_ndims = head_size` requirement when
the match root is a `Reshape`; on success the root is replaced by one RoPE
node with inputs `(qkv_linear, cos_sin_cache, cos_sin_cache)`. -/
def chatglmCallback (A B C ndims head_cnt head_size total_size_q total_size_k :
      Int)
    (split_output_id : Nat) (support_2d_rope root_is_reshape : Bool)
    (qkv_linear cos_sin_cache : Nat) : Option (RoPEConfig × List Nat) :=
  if ¬chatglm_validate_reshape_symbols A B C head_cnt then
    none
  else
    let slice_start := if split_output_id = 0 then 0 else total_size_q.toNat
    let slice_stop :=
      if split_output_id = 0 then total_size_q.toNat
      else slice_start + total_size_k.toNat
    let config : RoPEConfig :=
      { rotary_ndims := ndims.toNat
        is_chatglm := true
        support_2d_rope := support_2d_rope
        use_rope_cache := true
        head_cnt := head_cnt.toNat
        head_size := head_size.toNat
        slice_start := slice_start
        slice_stop := slice_stop }
    if root_is_reshape ∧ config.rotary_ndims ≠ config.head_size then
      none
    else
      some (config, [qkv_linear, cos_sin_cache, cos_sin_cache])

/-- C9: RoPEFusionChatGLM fuses only when the reshape-shape symbols form one
of the triples `(A,B,C) = (-1, head_cnt, 1)`, `(1, -1, head_cnt)` or
`(0, 0, 0)`; any other resolved triple makes the callback return `false`
with no mutation. -/
theorem C9_chatglm_reshape_symbols :
    (∀ A B C head_cnt : Int,
      chatglm_validate_reshape_symbols A B C head_cnt = true ↔
        ((A = -1 ∧ B = head_cnt ∧ C = 1) ∨ (A = 1 ∧ B = -1 ∧ C = head_cnt) ∨
          (A = 0 ∧ B = 0 ∧ C = 0)))
    ∧ (∀ (A B C ndims head_cnt head_size tq tk : Int) (sid : Nat)
        (s2d rir : Bool) (qkv csc : Nat),
      chatglm_validate_reshape_symbols A B C head_cnt = false →
        chatglmCallback A B C ndims head_cnt head_size tq tk sid s2d rir
          qkv csc = none) := by
  constructor
  · intro A B C head_cnt
    simp [chatglm_validate_reshape_symbols, or_assoc, and_assoc]
  · intro A B C ndims head_cnt head_size tq tk sid s2d rir qkv csc hfail
    simp [chatglmCallback, hfail]

/-- Witness for C9 at concrete inputs: the ChatGLM4 triple `(-1, 32, 1)`
passes the check, and the triple `(2, 3, 4)` (with `head_cnt = 32`) makes
the callback reject. -/
theorem C9_chatglm_reshape_symbols_witness :
    chatglm_validate_reshape_symbols (-1) 32 1 32 = true
    ∧ chatglmCallback 2 3 4 64 32 128 4096 4096 0 false false 0 1 = none :=
  ⟨(C9_chatglm_reshape_symbols.1 (-1) 32 1 32).mpr
     (Or.inl ⟨rfl, rfl, rfl⟩),
   C9_chatglm_reshape_symbols.2 2 3 4 64 32 128 4096 4096 0 false false 0 1
     (by decide)⟩

/-- The content-relevant data of the inverse-frequency `opset1::Constant`
as compared by the RoPEShareCosSin callback: element type, shape and raw
byte content (`get_element_type()`, `get_shape()`, `memcmp` of
`get_data_ptr()` over `get_byte_size()`). -/
structure ConstantData where
  element_type : Nat
  shape : List Nat
  bytes : List Nat
deriving DecidableEq, Repr

/-- The cross-match state of `ov::pass::RoPEShareCosSin`: the first-seen
inverse-frequency constant (`m_inv_freq`), the first-seen pair of shared
non-constant inputs (`m_shared_inputs`; the pattern declares exactly two),
and the first-seen cosine / sine root nodes (`m_shared_cos0`,
`m_shared_sin0`).  All fields are empty at pass start. -/
structure ShareState where
  m_inv_freq : Option ConstantData := none
  m_shared_inputs : Option (Nat × Nat) := none
  m_shared_cos0 : Option Nat := none
  m_shared_sin0 : Option Nat := none
deriving DecidableEq, Repr

/-- The stored seed of the branch (sine or cosine) a match aligned with. -/
def ShareState.branchSeed (st : ShareState) (is_sin_matched : Bool) :
    Option Nat :=
  if is_sin_matched then st.m_shared_sin0 else st.m_shared_cos0

/-- Embeds the `matcher_pass_callback` of `ov::pass::RoPEShareCosSin`
(`fuse_rotary_positional_embeddings.cpp:1130-1202`).  On the first match
(`m_inv_freq` empty) the current constant and the two shared inputs are
recorded; every match then compares the current constant's element type,
shape and bytes and the two inputs' node identities against the recorded
ones, failing on any difference; if the branch's seed (`m_shared_sin0` for a
sine match, `m_shared_cos0` for a cosine match) is not yet recorded, the
match root is recorded as the seed and `false` is returned; otherwise the
root is replaced by the stored seed.  The result pairs the updated state
with `some seed` (a rewrite via `ov::replace_node(root, replacement)`) or
`none` (return `false`, no rewrite). -/
def shareCosSinCallback (st : ShareState) (cur_inv_freq : ConstantData)
    (input0 input1 root : Nat) (is_sin_matched : Bool) :
    ShareState × Option Nat :=
  let st1 :=
    match st.m_inv_freq with
    | none =>
      { st with
        m_inv_freq := some cur_inv_freq
        m_shared_inputs := some (input0, input1) }
    | some _ => st
  match st1.m_inv_freq, st1.m_shared_inputs with
  | some inv, some shared =>
    if inv.element_type ≠ cur_inv_freq.element_type then (st1, none)
    else if inv.shape ≠ cur_inv_freq.shape then (st1, none)
    else if inv.bytes ≠ cur_inv_freq.bytes then (st1, none)
    else if shared.1 ≠ input0 ∨ shared.2 ≠ input1 then (st1, none)
    else if is_sin_matched then
      match st1.m_shared_sin0 with
      | none => ({ st1 with m_shared_sin0 := some root }, none)
      | some seed => (st1, some seed)
    else
      match st1.m_shared_cos0 with
      | none => ({ st1 with m_shared_cos0 := some root }, none)
      | some seed => (st1, some seed)
  | _, _ => (st1, none)

/-- Counterexample to C5 as stated: the claim says the first match of each
branch records its root as the seed and returns no-rewrite.  In the state
reached after a first cosine match recorded the constant
`⟨0, [4], [1,2,3,4]⟩` and inputs `(1, 2)` with cosine seed `10`, a first
sine-branch match whose inverse-frequency constant has different bytes
`[9,9,9,9]` returns no-rewrite but does NOT record its root `20` as the
sine seed. -/
theorem C5_share_first_match_counterexample :
    (shareCosSinCallback
        { m_inv_freq := some ⟨0, [4], [1, 2, 3, 4]⟩
          m_shared_inputs := some (1, 2)
          m_shared_cos0 := some 10
          m_shared_sin0 := none }
        ⟨0, [4], [9, 9, 9, 9]⟩ 1 2 20 true).1.m_shared_sin0 ≠ some 20
    ∧ (shareCosSinCallback
        { m_inv_freq := some ⟨0, [4], [1, 2, 3, 4]⟩
          m_shared_inputs := some (1, 2)
          m_shared_cos0 := some 10
          m_shared_sin0 := none }
        ⟨0, [4], [9, 9, 9, 9]⟩ 1 2 20 true).2 = none := by
  decide

/-- C5 (amended): once the seed of the corresponding branch has been
recorded, a match's root is replaced by the stored seed iff the
inverse-frequency constant is identical in element type, shape and bytes to
the first-seen constant and both shared non-constant inputs are the
identical nodes as first seen (first conjunct).  The very first match
records the constant, the inputs and its branch seed and returns no-rewrite
(second conjunct).  The first match of a branch after some other match
already recorded the constant records its root as the branch seed only when
the constant and shared inputs match the recorded ones, and returns
no-rewrite either way (third conjunct). -/
theorem C5_share_cos_sin_amended (st : ShareState) (cur inv : ConstantData)
    (s0 s1 in0 in1 root seed : Nat) (is_sin_matched : Bool) :
    (st.m_inv_freq = some inv → st.m_shared_inputs = some (s0, s1) →
      st.branchSeed is_sin_matched = some seed →
      (shareCosSinCallback st cur in0 in1 root is_sin_matched).2
        = if inv.element_type = cur.element_type ∧ inv.shape = cur.shape ∧
              inv.bytes = cur.bytes ∧ s0 = in0 ∧ s1 = in1
          then some seed else none)
    ∧ (st.m_inv_freq = none →
      st.branchSeed is_sin_matched = none →
      (shareCosSinCallback st cur in0 in1 root is_sin_matched).1.branchSeed
          is_sin_matched = some root
      ∧ (shareCosSinCallback st cur in0 in1 root is_sin_matched).2 = none)
    ∧ (st.m_inv_freq = some inv → st.m_shared_inputs = some (s0, s1) →
      st.branchSeed is_sin_matched = none →
      (shareCosSinCallback st cur in0 in1 root is_sin_matched).1.branchSeed
          is_sin_matched
        = (if inv.element_type = cur.element_type ∧ inv.shape = cur.shape ∧
              inv.bytes = cur.bytes ∧ s0 = in0 ∧ s1 = in1
           then some root else none)
      ∧ (shareCosSinCallback st cur in0 in1 root is_sin_matched).2 = none) := by
  obtain ⟨sif, ssi, sc0, ss0⟩ := st
  obtain ⟨ie, ish, ib⟩ := inv
  obtain ⟨ce, csh, cb⟩ := cur
  refine ⟨?_, ?_, ?_⟩
  · intro hinv hinputs hseed
    cases is_sin_matched <;>
      simp only [ShareState.branchSeed, if_true, if_false, Bool.false_eq_true,
        ite_false, ite_true] at hseed <;>
    by_cases h1 : ie = ce <;> by_cases h2 : ish = csh <;>
      by_cases h3 : ib = cb <;> by_cases h4 : s0 = in0 <;>
      by_cases h5 : s1 = in1 <;>
      simp_all [shareCosSinCallback, ShareState.branchSeed]
  · intro hinv hseed
    cases is_sin_matched <;>
      simp_all [shareCosSinCallback, ShareState.branchSeed]
  · intro hinv hinputs hseed
    cases is_sin_matched <;>
      simp only [ShareState.branchSeed, Bool.false_eq_true, ite_false,
        ite_true] at hseed <;>
    by_cases h1 : ie = ce <;> by_cases h2 : ish = csh <;>
      by_cases h3 : ib = cb <;> by_cases h4 : s0 = in0 <;>
      by_cases h5 : s1 = in1 <;>
      simp_all [shareCosSinCallback, ShareState.branchSeed]

/-- Witness for the amended C5 at a concrete input: both seeds recorded, a
sine match with the identical constant and identical inputs is replaced by
the stored sine seed `11`. -/
theorem C5_share_cos_sin_amended_witness :
    (shareCosSinCallback
        { m_inv_freq := some ⟨0, [4], [1, 2, 3, 4]⟩
          m_shared_inputs := some (1, 2)
          m_shared_cos0 := some 10
          m_shared_sin0 := some 11 }
        ⟨0, [4], [1, 2, 3, 4]⟩ 1 2 20 true).2
      = if (⟨0, [4], [1, 2, 3, 4]⟩ : ConstantData).element_type
            = (⟨0, [4], [1, 2, 3, 4]⟩ : ConstantData).element_type
          ∧ (⟨0, [4], [1, 2, 3, 4]⟩ : ConstantData).shape
            = (⟨0, [4], [1, 2, 3, 4]⟩ : ConstantData).shape
          ∧ (⟨0, [4], [1, 2, 3, 4]⟩ : ConstantData).bytes
            = (⟨0, [4], [1, 2, 3, 4]⟩ : ConstantData).bytes
          ∧ 1 = 1 ∧ 2 = 2 then some 11 else none :=
  (C5_share_cos_sin_amended
    { m_inv_freq := some ⟨0, [4], [1, 2, 3, 4]⟩
      m_shared_inputs := some (1, 2)
      m_shared_cos0 := some 10
      m_shared_sin0 := some 11 }
    ⟨0, [4], [1, 2, 3, 4]⟩ ⟨0, [4], [1, 2, 3, 4]⟩
    1 2 1 2 20 11 true).1 rfl rfl rfl

/-- Modelled from the spec: the pass orchestration driving
`ov::pass::RoPEFusion::run_on_model`
(`fuse_rotary_positional_embeddings.cpp:51-79`).  The matcher engine and the
`SymbolicOptimizations` manager are not under `src/`; per sections 2 and 8
of the spec the orchestrator drives the registered rules over every IR node
until no pattern fires a further time, and every firing rewrite replaces a
multi-node subgraph by one canonical node (or discards a duplicate
subgraph), strictly shrinking the graph.  `step g = some g2` means some
registered rule fired on `g` producing `g2`; `step g = none` means no rule
fires; `size` is the graph's node count, strictly decreased by every
firing. -/
structure RewritePipeline (G : Type) where
  size : G → Nat
  step : G → Option G
  step_decreasing : ∀ g g2, step g = some g2 → size g2 < size g

/-- Fuel-bounded iteration of the pipeline's step. -/
def runPipelineAux {G : Type} (P : RewritePipeline G) : Nat → G → G
  | 0, g => g
  | Nat.succ fuel, g =>
    match P.step g with
    | none => g
    | some g2 => runPipelineAux P fuel g2

/-- One full run of the pipeline: iterate until no rule fires (the node
count bounds the number of firings, so `size g` fuel always reaches the
fixpoint). -/
def runPipeline {G : Type} (P : RewritePipeline G) (g : G) : G :=
  runPipelineAux P (P.size g) g

theorem runPipelineAux_fixpoint {G : Type} (P : RewritePipeline G) :
    ∀ (fuel : Nat) (g : G), P.size g ≤ fuel →
      P.step (runPipelineAux P fuel g) = none := by
  intro fuel
  induction fuel with
  | zero =>
    intro g hle
    cases hstep : P.step g with
    | none => simpa [runPipelineAux] using hstep
    | some g2 =>
      have := P.step_decreasing g g2 hstep
      omega
  | succ n ih =>
    intro g hle
    cases hstep : P.step g with
    | none => simp [runPipelineAux, hstep]
    | some g2 =>
      have hdec := P.step_decreasing g g2 hstep
      have : P.size g2 ≤ n := by omega
      simpa [runPipelineAux, hstep] using ih g2 this

theorem runPipeline_fixpoint {G : Type} (P : RewritePipeline G) (g : G) :
    P.step (runPipeline P g) = none :=
  runPipelineAux_fixpoint P (P.size g) g (Nat.le_refl _)

theorem runPipelineAux_of_no_fire {G : Type} (P : RewritePipeline G)
    (fuel : Nat) (g : G) (h : P.step g = none) :
    runPipelineAux P fuel g = g := by
  cases fuel <;> simp [runPipelineAux, h]

/-- C8: running the full RoPEFusion rule pipeline a second time on a graph
already fully fused by a first run produces no further structural change —
the pipeline is idempotent on its own output.  (Spec-modelled: the rule
engine iterates to a fixpoint at which no registered rule fires, so the
second run returns its input unchanged.) -/
theorem C8_pipeline_idempotent {G : Type} (P : RewritePipeline G) (g : G) :
    runPipeline P (runPipeline P g) = runPipeline P g := by
  have hfix : P.step (runPipeline P g) = none := runPipeline_fixpoint P g
  exact runPipelineAux_of_no_fire P (P.size (runPipeline P g))
    (runPipeline P g) hfix

/-- The node of a host IR graph or of the internal RoPE operation set is
discriminated through a `DiscreteTypeInfo` chain
(`openvino/core/type.hpp:30-75`): a name, an optional version string, and
an optional parent used for inheritance traversal. -/
inductive DiscreteTypeInfo where
  | root (name : String) (version_id : Option String) : DiscreteTypeInfo
  | child (name : String) (version_id : Option String)
      (parent : DiscreteTypeInfo) : DiscreteTypeInfo
deriving DecidableEq, Repr

/-- Modelled from the spec: `DiscreteTypeInfo::is_castable` is only declared
in `openvino/core/type.hpp:56`; its definition is not under `src/`.  Per
sections 6 and 9 of the spec it is a capability query succeeding iff the
exact type matches or an ancestor tag matches: an equality check plus a
walk up the parent chain. -/
def DiscreteTypeInfo.is_castable :
    DiscreteTypeInfo → DiscreteTypeInfo → Bool
  | DiscreteTypeInfo.root n v, target =>
    DiscreteTypeInfo.root n v = target
  | DiscreteTypeInfo.child n v p, target =>
    DiscreteTypeInfo.child n v p = target || p.is_castable target

/-- A (node) object as seen through a pointer: it carries its runtime type
info (`get_type_info()`); a pointer value is `Option NodeObj`, with `none`
the null pointer. -/
structure NodeObj where
  type_info : DiscreteTypeInfo
deriving DecidableEq, Repr

/-- Embeds `ov::is_type<Type>` (`openvino/core/type.hpp:91-98`): `value &&
value->get_type_info().is_castable(Type::get_type_info_static())`.  The
target type `Type` is represented by its static type info; the null pointer
short-circuits `&&`, so the value is never dereferenced. -/
def is_type (target_static_info : DiscreteTypeInfo)
    (value : Option NodeObj) : Bool :=
  match value with
  | none => false
  | some v => v.type_info.is_castable target_static_info

/-- Embeds `ov::util::AsTypePtr::call` as used by `ov::as_type_ptr`
(`openvino/core/type.hpp:116-138`): `is_type<Type>(value) ?
static_pointer_cast<Type>(value) : shared_ptr<Type>()`.  The static cast
keeps the same object; the failure result is the empty pointer. -/
def as_type_ptr (target_static_info : DiscreteTypeInfo)
    (value : Option NodeObj) : Option NodeObj :=
  if is_type target_static_info value then value else none

/-- C10: `ov::is_type<T>(v)` returns `false` when `v` is null without
dereferencing `v`, and otherwise returns exactly
`v->get_type_info().is_castable(T::get_type_info_static())`; consequently
`ov::as_type_ptr<T>` on a null or non-castable handle yields an empty
pointer rather than failing. -/
theorem C10_is_type_null_safe :
    (∀ t : DiscreteTypeInfo, is_type t none = false)
    ∧ (∀ (t : DiscreteTypeInfo) (v : NodeObj),
        is_type t (some v) = v.type_info.is_castable t)
    ∧ (∀ t : DiscreteTypeInfo, as_type_ptr t none = none)
    ∧ (∀ (t : DiscreteTypeInfo) (v : NodeObj),
        v.type_info.is_castable t = false → as_type_ptr t (some v) = none) := by
  refine ⟨fun t => rfl, fun t v => rfl, fun t => rfl, fun t v h => ?_⟩
  simp [as_type_ptr, is_type, h]

/-- Witness for C10 at concrete inputs: target type info named Constant,
value of an unrelated type named Add (not castable), and the null pointer. -/
theorem C10_is_type_null_safe_witness :
    is_type (DiscreteTypeInfo.root (String.mk [])
      (some (String.mk []))) none = false
    ∧ as_type_ptr (DiscreteTypeInfo.root (String.mk []) none)
        (some ⟨DiscreteTypeInfo.child (String.mk []) none
          (DiscreteTypeInfo.root (String.mk []) (some (String.mk [])))⟩)
      = none :=
  ⟨C10_is_type_null_safe.1 _,
   C10_is_type_null_safe.2.2.2 _ _ (by decide)⟩

/-- A concrete strictly-decreasing rewrite pipeline used to witness the
idempotence theorem on an evaluable input. -/
def countdownPipeline : RewritePipeline Nat where
  size := fun n => n
  step := fun n =>
    match n with
    | 0 => none
    | Nat.succ m => some m
  step_decreasing := by
    intro g g2 h
    cases g with
    | zero => simp at h
    | succ m =>
      simp only [Option.some.injEq] at h
      subst h
      exact Nat.lt_succ_self m

/-- Witness for C8 at a concrete input: the countdown pipeline run twice
from 3 equals one run from 3. -/
theorem C8_pipeline_idempotent_witness :
    runPipeline countdownPipeline (runPipeline countdownPipeline 3)
      = runPipeline countdownPipeline 3 :=
  C8_pipeline_idempotent countdownPipeline 3
